import Mathlib

/-!
Verification of the redfish-monitor terminal dashboard (src/main.rs).

The development shallowly embeds the parts of the program the claims are
about:

* a JSON value model for serde_json `Value` (post-parse), with `get?`
  (`Value::get`), `index` (`Value::index`, null-propagating), `asStr`
  (`as_str`) and `asU64` (`as_u64`);
* `SensorReading` and the per-sensor processing loop of `update_readings`
  (`processSensor`, `buildReading`);
* the per-cycle snapshot map built by `update_readings`, modelled as an
  association list with replace-on-insert semantics mirroring
  `HashMap::insert` (`Snapshot`, `insertSnap`, `updateReadings`);
* `get_tokens` over per-address network outcomes (`getTokens`);
* the render panel text of `start_ui` (`panelText`, `formatReading`);
* the render-loop control flow with its teardown (`uiLoop`, `runStartUi`);
* the poll-loop timing (`sleepAfterCycle`, `cycleStart`) and the
  event-poll wait computation (`pollTimeout`, with `Duration`
  subtraction modelled as `durSub`: `none` models the panic on
  underflow);
* the shared snapshot store as a step relation over install/read events
  (`observedReads`), where an install is a single event because the code
  replaces the whole prebuilt map in one assignment under the exclusive
  writer lock.

Network and parse outcomes are modelled at the interface granularity:
a fetch yields either a transport error, an unparsable body (this also
covers `resp.text()` failing, since `unwrap_or_default` then feeds the
empty string to `from_str`, which cannot parse it), or a parsed JSON
value.
-/

/-- serde_json `Value`, restricted to what the program consumes.
Numbers are modelled as integers: `as_u64` is `some` exactly for
integer values in `[0, 2^64)`, which is what the claims about
"non-negative integer `Reading`" need (floats and out-of-range
integers both give `none` in serde_json, as here). -/
inductive Json where
  | null
  | bool (b : Bool)
  | num (n : Int)
  | str (s : String)
  | arr (elems : List Json)
  | obj (fields : List (String × Json))

/-- Field lookup in an object's field list (first match). -/
def lookupField (k : String) : List (String × Json) → Option Json
  | [] => none
  | p :: rest => if p.1 = k then some p.2 else lookupField k rest

/-- `Value::get(key)`: `some` field value on objects, `none` otherwise. -/
def Json.get? (j : Json) (k : String) : Option Json :=
  match j with
  | .obj fields => lookupField k fields
  | _ => none

/-- `Value::index` for `value[key]`: missing key or non-object gives `Null`. -/
def Json.index (j : Json) (k : String) : Json :=
  (j.get? k).getD .null

/-- `Value::as_str`. -/
def Json.asStr : Json → Option String
  | .str s => some s
  | _ => none

/-- `Value::as_u64`: non-negative integers below `2^64`. -/
def Json.asU64 : Json → Option Nat
  | .num n => if 0 ≤ n ∧ n < 2 ^ 64 then some n.toNat else none
  | _ => none

/-- `Value::as_array`. -/
def Json.asArr : Json → Option (List Json)
  | .arr elems => some elems
  | _ => none

/-- The `SensorReading` struct of src/main.rs. -/
structure SensorReading where
  psu_pin : Option Nat
  cpu_power : Option Nat
  cpu0_power : Option Nat
  cpu1_power : Option Nat
  fan_power : Option Nat
  cpu0_temp : Option Nat
  cpu1_temp : Option Nat
deriving DecidableEq, Repr

/-- The all-`None` reading `update_readings` starts each address with. -/
def initReading : SensorReading :=
  ⟨none, none, none, none, none, none, none⟩

/-- `sensor.get("Name").and_then(|v| v.as_str()).unwrap_or("")`. -/
def getName (sensor : Json) : String :=
  ((sensor.get? "Name").bind Json.asStr).getD ""

/-- `sensor.get("Reading").and_then(|v| v.as_u64())`. -/
def getReading (sensor : Json) : Option Nat :=
  (sensor.get? "Reading").bind Json.asU64

/-- One iteration of the `for sensor in sensors` loop of
`update_readings`: the `match name` statement. -/
def processSensor (r : SensorReading) (sensor : Json) : SensorReading :=
  match getName sensor with
  | "PSU1_PIN" => { r with psu_pin := getReading sensor }
  | "CPU_Power" => { r with cpu_power := getReading sensor }
  | "CPU0_Power" => { r with cpu0_power := getReading sensor }
  | "CPU1_Power" => { r with cpu1_power := getReading sensor }
  | "CPU0_Temp" => { r with cpu0_temp := getReading sensor }
  | "CPU1_Temp" => { r with cpu1_temp := getReading sensor }
  | "Fan_Power" => { r with fan_power := getReading sensor }
  | _ => r

/-- The whole sensor loop: fold `processSensor` over the `Sensors` array. -/
def buildReading (sensors : List Json) : SensorReading :=
  List.foldl processSensor initReading sensors

/-- The seven `Name` values the `match` recognizes. -/
def recognizedNames : List String :=
  ["PSU1_PIN", "CPU_Power", "CPU0_Power", "CPU1_Power",
   "CPU0_Temp", "CPU1_Temp", "Fan_Power"]

/-- The `SensorReading` field a recognized name populates
(`none` for unrecognized names, which populate nothing). -/
def metricOf (name : String) (r : SensorReading) : Option Nat :=
  if name = "PSU1_PIN" then r.psu_pin
  else if name = "CPU_Power" then r.cpu_power
  else if name = "CPU0_Power" then r.cpu0_power
  else if name = "CPU1_Power" then r.cpu1_power
  else if name = "CPU0_Temp" then r.cpu0_temp
  else if name = "CPU1_Temp" then r.cpu1_temp
  else if name = "Fan_Power" then r.fan_power
  else none

/-- The per-cycle map `HashMap<String, SensorReading>`, modelled as an
association list (iteration order is irrelevant to the program: the map
is only consumed through keyed `get`). -/
abbrev Snapshot := List (String × SensorReading)

/-- Remove every binding of key `k` (helper for `insertSnap`). -/
def eraseKey (k : String) : Snapshot → Snapshot
  | [] => []
  | p :: rest => if p.1 = k then eraseKey k rest else p :: eraseKey k rest

/-- `HashMap::insert`: bind `k` to `v`, replacing any previous binding. -/
def insertSnap (m : Snapshot) (k : String) (v : SensorReading) : Snapshot :=
  (k, v) :: eraseKey k m

/-- `HashMap::get` (`data.get(ip)` in the render loop). -/
def lookupSnap (k : String) : Snapshot → Option SensorReading
  | [] => none
  | p :: rest => if p.1 = k then some p.2 else lookupSnap k rest

/-- The key list of a snapshot. -/
def snapshotKeys (m : Snapshot) : List String :=
  m.map Prod.fst

/-- Outcome of one sensor fetch for one address, at interface
granularity:
* `none` — `client.get(..).send()` failed (the `if let Ok(resp)` arm
  is not taken);
* `some none` — the body did not parse as JSON (`from_str` failed;
  this includes `resp.text()` failing, since `unwrap_or_default` then
  hands `from_str` the empty string, which is not valid JSON);
* `some (some j)` — the body parsed as the JSON value `j`. -/
abbrev FetchResult := Option (Option Json)

/-- The body of `update_readings`'s per-address loop after a parsed
response: a reading is produced exactly when the JSON has a `Sensors`
array (`json.get("Sensors").and_then(|s| s.as_array())`). -/
def pollOnce (fetch : String → String → FetchResult) (ip token : String) :
    Option SensorReading :=
  match fetch ip token with
  | none => none
  | some none => none
  | some (some j) =>
    match (j.get? "Sensors").bind Json.asArr with
    | none => none
    | some sensors => some (buildReading sensors)

/-- One iteration of the `for (ip, token)` loop: insert into the cycle
map on success, leave it unchanged on any failure. -/
def stepPoll (fetch : String → String → FetchResult) (m : Snapshot)
    (p : String × String) : Snapshot :=
  match pollOnce fetch p.1 p.2 with
  | some r => insertSnap m p.1 r
  | none => m

/-- `update_readings`: build the cycle's map from an empty one by
polling every `(ip, token)` pair in lockstep (`ips.iter().zip(tokens)`).
The returned map is the value installed into the shared store. -/
def updateReadings (fetch : String → String → FetchResult)
    (ips tokens : List String) : Snapshot :=
  List.foldl (stepPoll fetch) [] (List.zip ips tokens)

/-- Outcome of one login exchange in `get_tokens`, at interface
granularity. The three failure arms correspond to the three `?`
operators in the loop body. -/
inductive LoginResp where
  | sendErr
  | textErr
  | parseErr
  | parsed (j : Json)

/-- `json["Oem"]["Public"]["X-Auth-Token"].as_str().unwrap_or("")`. -/
def extractToken (j : Json) : String :=
  (Json.asStr (((j.index "Oem").index "Public").index "X-Auth-Token")).getD ""

/-- `get_tokens` over the ordered per-address outcomes: the first
`sendErr`/`textErr`/`parseErr` aborts with `Err` (the `?` operators);
a parsed body contributes `extractToken` of it. -/
def getTokens : List LoginResp → Except Unit (List String)
  | [] => .ok []
  | .sendErr :: _ => .error ()
  | .textErr :: _ => .error ()
  | .parseErr :: _ => .error ()
  | .parsed j :: rest =>
    match getTokens rest with
    | .ok ts => .ok (extractToken j :: ts)
    | .error e => .error e

/-- `true` for the outcomes on which a `?` in `get_tokens` fires. -/
def LoginResp.fails : LoginResp → Bool
  | .parsed _ => false
  | _ => true

/-- `unwrap_or(0)`: the render-time display default for a metric. -/
def displayMetric (v : Option Nat) : Nat :=
  v.getD 0

/-- The `Some(r) => format!(...)` arm of the render loop, transcribing
the format string of src/main.rs with each `{}` filled in. -/
def formatReading (r : SensorReading) : String :=
  " PSU_PIN: " ++ toString (displayMetric r.psu_pin) ++
  " W | CPU Tot: " ++ toString (displayMetric r.cpu_power) ++
  " W  \t\t CPU 0: " ++ toString (displayMetric r.cpu0_power) ++
  " W | CPU 1: " ++ toString (displayMetric r.cpu1_power) ++
  " W \n Fan: " ++ toString (displayMetric r.fan_power) ++
  " W \t\t CPU 0 Temp: " ++ toString (displayMetric r.cpu0_temp) ++
  " °C | CPU 1 Temp: " ++ toString (displayMetric r.cpu1_temp) ++ " °C"

/-- The panel body drawn for address `ip` given the snapshot read this
tick: `data.get(ip)` then the `match reading`. -/
def panelText (data : Snapshot) (ip : String) : String :=
  match lookupSnap ip data with
  | some r => formatReading r
  | none => " No data available."

/-- The render tick interval, `Duration::from_millis(1000)`, in ms. -/
def tickRateMillis : Nat := 1000

/-- `Duration` subtraction `a - b` (std `Sub for Duration`): defined
when `b ≤ a`, otherwise it panics ("overflow when subtracting
durations"), modelled as `none`. -/
def durSub (a b : Nat) : Option Nat :=
  if b ≤ a then some (a - b) else none

/-- The wait passed to `event::poll`: `tick_rate - last_tick.elapsed()`,
with `elapsed` in ms. `none` means the subtraction panicked. -/
def pollTimeout (elapsed : Nat) : Option Nat :=
  durSub tickRateMillis elapsed

/-- What the render loop observes on one iteration, covering every
control path of the loop body:
* `drawErr` — `terminal.draw(..)?` returns `Err`;
* `pollErr` — `event::poll(..)?` returns `Err`;
* `readErr` — `event::poll` returned `true` and `event::read()?`
  returns `Err`;
* `keyPress c` — `event::read` yielded `Event::Key` with code
  `Char c`;
* `otherEvent` — `event::read` yielded a non-key event (or a key
  without a `Char` code, folded in: only `code == Char('q')` is ever
  inspected);
* `timeout` — `event::poll` returned `false`. -/
inductive UiEvent where
  | drawErr
  | pollErr
  | readErr
  | keyPress (c : Char)
  | otherEvent
  | timeout
deriving DecidableEq, Repr

/-- The render loop of `start_ui` run over a finite trace of iteration
observations: `.error ()` when a `?` propagates an error out of the
loop, `.ok (some ())` when the quit key breaks out of the loop,
`.ok none` when the trace ends with the loop still running. -/
def uiLoop : List UiEvent → Except Unit (Option Unit)
  | [] => .ok none
  | .drawErr :: _ => .error ()
  | .pollErr :: _ => .error ()
  | .readErr :: _ => .error ()
  | .keyPress c :: rest => if c = 'q' then .ok (some ()) else uiLoop rest
  | .otherEvent :: rest => uiLoop rest
  | .timeout :: rest => uiLoop rest

/-- `start_ui` from the top of its loop: run the loop, and perform the
terminal teardown (`disable_raw_mode` / `LeaveAlternateScreen`) only on
the normal exit after `break`. Result: how `start_ui` returned (`none`
while still looping) and how many times teardown ran. A propagated
`?` error returns before reaching the teardown code. -/
def runStartUi (evs : List UiEvent) : Option (Except Unit Unit) × Nat :=
  match uiLoop evs with
  | .error e => (some (.error e), 0)
  | .ok none => (none, 0)
  | .ok (some _) => (some (.ok ()), 1)

/-- `sleep(Duration::from_secs(1))` between poll cycles, in ms. -/
def pollSleepMillis : Nat := 1000

/-- The sleep the poll loop performs after a cycle that took
`cycleMillis`: a fixed full interval, independent of the cycle's
duration (`sleep` is called unconditionally after `update_readings`). -/
def sleepAfterCycle (_cycleMillis : Nat) : Nat :=
  pollSleepMillis

/-- Start time of the next cycle: the loop body is
`update_readings(..).await; sleep(1s).await`, so the next cycle starts
a full cycle-duration plus a full sleep after the previous start. -/
def nextCycleStart (start cycleMillis : Nat) : Nat :=
  start + cycleMillis + sleepAfterCycle cycleMillis

/-- Start time (ms from the first cycle's start) of the cycle that
follows the listed cycle durations. -/
def cycleStart (durations : List Nat) : Nat :=
  List.foldl nextCycleStart 0 durations

/-- Events on the shared snapshot store. `install n` is the poller
finishing cycle `n`: it takes the writer lock and replaces the whole
slot with that cycle's prebuilt map in a single assignment
(`*guard = map`), so it is one atomic event. `read` is the render loop
taking the reader lock and reading the slot. -/
inductive StoreEvent where
  | install (n : Nat)
  | read
deriving DecidableEq, Repr

/-- Run a trace of store events from current slot value `cur`, where
cycle `n`'s complete map is `cycles n`; collect the snapshot observed
by each read. -/
def observedReads (cycles : Nat → Snapshot) :
    List StoreEvent → Snapshot → List Snapshot
  | [], _ => []
  | .install n :: rest, _ => observedReads cycles rest (cycles n)
  | .read :: rest, cur => cur :: observedReads cycles rest cur

/-! ### Association-map lemmas -/

theorem snapshotKeys_eraseKey_sublist (k : String) (m : Snapshot) :
    (snapshotKeys (eraseKey k m)).Sublist (snapshotKeys m) := by
  induction m with
  | nil => simp [eraseKey]
  | cons p rest ih =>
    by_cases h : p.1 = k
    · simp only [eraseKey, if_pos h, snapshotKeys, List.map_cons]
      exact ih.trans (List.sublist_cons_self _ _)
    · simpa only [eraseKey, if_neg h, snapshotKeys, List.map_cons] using ih.cons₂ _

theorem not_mem_keys_eraseKey (k : String) (m : Snapshot) :
    k ∉ snapshotKeys (eraseKey k m) := by
  induction m with
  | nil => simp [eraseKey, snapshotKeys]
  | cons p rest ih =>
    by_cases h : p.1 = k
    · simpa only [eraseKey, if_pos h] using ih
    · simp only [eraseKey, if_neg h, snapshotKeys, List.map_cons, List.mem_cons]
      rintro (rfl | hmem)
      · exact h rfl
      · exact ih hmem

theorem snapshotKeys_insertSnap_nodup (m : Snapshot) (k : String)
    (v : SensorReading) (h : (snapshotKeys m).Nodup) :
    (snapshotKeys (insertSnap m k v)).Nodup := by
  simp only [insertSnap, snapshotKeys, List.map_cons, List.nodup_cons]
  exact ⟨not_mem_keys_eraseKey k m, ((snapshotKeys_eraseKey_sublist k m).nodup h)⟩

theorem lookupSnap_eraseKey (k k' : String) (m : Snapshot) (h : k' ≠ k) :
    lookupSnap k' (eraseKey k m) = lookupSnap k' m := by
  induction m with
  | nil => rfl
  | cons p rest ih =>
    by_cases hp : p.1 = k
    · rw [eraseKey, if_pos hp, ih, lookupSnap, if_neg (by rw [hp]; exact fun hh => h hh.symm)]
    · rw [eraseKey, if_neg hp, lookupSnap, lookupSnap]
      by_cases hp' : p.1 = k'
      · rw [if_pos hp', if_pos hp']
      · rw [if_neg hp', if_neg hp', ih]

theorem lookupSnap_insertSnap_self (m : Snapshot) (k : String) (v : SensorReading) :
    lookupSnap k (insertSnap m k v) = some v := by
  simp [insertSnap, lookupSnap]

theorem lookupSnap_insertSnap_ne (m : Snapshot) (k k' : String)
    (v : SensorReading) (h : k' ≠ k) :
    lookupSnap k' (insertSnap m k v) = lookupSnap k' m := by
  rw [insertSnap, lookupSnap, if_neg (fun hh => h hh.symm)]
  exact lookupSnap_eraseKey k k' m h

theorem foldl_stepPoll_nodup (fetch : String → String → FetchResult)
    (l : List (String × String)) (m : Snapshot) (h : (snapshotKeys m).Nodup) :
    (snapshotKeys (List.foldl (stepPoll fetch) m l)).Nodup := by
  induction l generalizing m with
  | nil => exact h
  | cons p rest ih =>
    rw [List.foldl_cons]
    apply ih
    unfold stepPoll
    cases pollOnce fetch p.1 p.2 with
    | none => exact h
    | some r => exact snapshotKeys_insertSnap_nodup m p.1 r h

theorem foldl_stepPoll_lookup (fetch : String → String → FetchResult)
    (l : List (String × String)) (m : Snapshot) (ip : String) :
    (lookupSnap ip (List.foldl (stepPoll fetch) m l)).isSome = true ↔
      (lookupSnap ip m).isSome = true ∨
        ∃ tok, (ip, tok) ∈ l ∧ (pollOnce fetch ip tok).isSome = true := by
  induction l generalizing m with
  | nil => simp
  | cons p rest ih =>
    obtain ⟨q, tk⟩ := p
    rw [List.foldl_cons, ih]
    unfold stepPoll
    cases hp : pollOnce fetch q tk with
    | none =>
      simp only [List.mem_cons, Prod.mk.injEq]
      constructor
      · rintro (hm | ⟨tok, htok, hsucc⟩)
        · exact Or.inl hm
        · exact Or.inr ⟨tok, Or.inr htok, hsucc⟩
      · rintro (hm | ⟨tok, ⟨rfl, rfl⟩ | htok, hsucc⟩)
        · exact Or.inl hm
        · rw [hp] at hsucc; exact absurd hsucc (by simp)
        · exact Or.inr ⟨tok, htok, hsucc⟩
    | some r =>
      by_cases hip : ip = q
      · subst hip
        rw [lookupSnap_insertSnap_self]
        simp only [Option.isSome_some, List.mem_cons, Prod.mk.injEq]
        constructor
        · intro _; exact Or.inr ⟨tk, Or.inl ⟨trivial, rfl⟩, by rw [hp]; rfl⟩
        · intro _; exact Or.inl trivial
      · rw [lookupSnap_insertSnap_ne m q ip r hip]
        simp only [List.mem_cons, Prod.mk.injEq]
        constructor
        · rintro (hm | ⟨tok, htok, hsucc⟩)
          · exact Or.inl hm
          · exact Or.inr ⟨tok, Or.inr htok, hsucc⟩
        · rintro (hm | ⟨tok, ⟨rfl, rfl⟩ | htok, hsucc⟩)
          · exact Or.inl hm
          · exact absurd rfl hip
          · exact Or.inr ⟨tok, htok, hsucc⟩

/-- C1: For every poll cycle of `update_readings`, the installed map
has at most one entry per controller address (its key list has no
duplicates), and it contains an entry for an address exactly when some
`(ip, token)` pair of the cycle had a successful fetch whose body
parsed as JSON with a `Sensors` array (`pollOnce` returned a reading);
addresses whose request or parse failed are absent. -/
theorem update_readings_installs_exactly_successes
    (fetch : String → String → FetchResult) (ips tokens : List String) :
    (snapshotKeys (updateReadings fetch ips tokens)).Nodup ∧
      ∀ ip, (lookupSnap ip (updateReadings fetch ips tokens)).isSome = true ↔
        ∃ tok, (ip, tok) ∈ List.zip ips tokens ∧
          (pollOnce fetch ip tok).isSome = true := by
  constructor
  · exact foldl_stepPoll_nodup fetch (List.zip ips tokens) [] (by simp [snapshotKeys])
  · intro ip
    rw [updateReadings, foldl_stepPoll_lookup]
    simp [lookupSnap]

/-! ### Sensor-processing lemmas -/

theorem metricOf_processSensor (n : String) (r : SensorReading) (sensor : Json)
    (hn : n ∈ recognizedNames) :
    metricOf n (processSensor r sensor) =
      if getName sensor = n then getReading sensor else metricOf n r := by
  have hn' : n = "PSU1_PIN" ∨ n = "CPU_Power" ∨ n = "CPU0_Power" ∨
      n = "CPU1_Power" ∨ n = "CPU0_Temp" ∨ n = "CPU1_Temp" ∨ n = "Fan_Power" := by
    simpa [recognizedNames] using hn
  unfold processSensor
  rcases hn' with rfl | rfl | rfl | rfl | rfl | rfl | rfl <;>
    split <;> simp_all [metricOf]

theorem metricOf_foldl_frame (n : String) (l : List Json) (r : SensorReading)
    (hn : n ∈ recognizedNames) (h : ∀ x ∈ l, getName x ≠ n) :
    metricOf n (List.foldl processSensor r l) = metricOf n r := by
  induction l generalizing r with
  | nil => rfl
  | cons x rest ih =>
    rw [List.foldl_cons, ih (processSensor r x) (fun y hy => h y (List.mem_cons_of_mem x hy)),
      metricOf_processSensor n r x hn, if_neg (h x (List.mem_cons_self x rest))]

theorem metricOf_buildReading_last (n : String) (pre post : List Json) (e : Json)
    (hn : n ∈ recognizedNames) (he : getName e = n)
    (hpost : ∀ x ∈ post, getName x ≠ n) :
    metricOf n (buildReading (pre ++ e :: post)) = getReading e := by
  rw [buildReading, List.foldl_append, List.foldl_cons,
    metricOf_foldl_frame n post _ hn hpost,
    metricOf_processSensor n _ e hn, if_pos he]

/-- C8: Processing a sensor entry whose extracted `Name` is not one of
the seven recognized values — including a missing or non-string
`Name`, which extracts as `""` — leaves the `SensorReading` being
built entirely unchanged (the `_ => {}` arm). -/
theorem unrecognized_sensor_leaves_reading_unchanged
    (r : SensorReading) (sensor : Json)
    (h : getName sensor ∉ recognizedNames) :
    processSensor r sensor = r := by
  unfold processSensor
  split <;> simp_all [recognizedNames]

/-- A sensor entry named `Unknown_Sensor` with `Reading: 999`. -/
def unknownSensor : Json :=
  .obj [("Name", .str "Unknown_Sensor"), ("Reading", .num 999)]

/-- A sensor entry with no `Name` field at all. -/
def namelessSensor : Json :=
  .obj [("Reading", .num 7)]

/-- Witness for C8: the spec's own example entry (`Unknown_Sensor`,
`Reading: 999`), and an entry with no `Name`, both leave the reading
unchanged. -/
theorem unrecognized_sensor_leaves_reading_unchanged_witness :
    processSensor initReading unknownSensor = initReading ∧
      processSensor initReading namelessSensor = initReading :=
  ⟨unrecognized_sensor_leaves_reading_unchanged initReading unknownSensor (by decide),
   unrecognized_sensor_leaves_reading_unchanged initReading namelessSensor (by decide)⟩

/-- A `CPU_Power` entry with integer `Reading` 120. -/
def cpuPowerGood : Json :=
  .obj [("Name", .str "CPU_Power"), ("Reading", .num 120)]

/-- A `CPU_Power` entry whose `Reading` field is missing. -/
def cpuPowerBad : Json :=
  .obj [("Name", .str "CPU_Power")]

/-- C10: When the `Sensors` array contains several entries with the
same recognized `Name`, the last such entry determines the stored
metric: the loop assigns the extracted `Reading` (even `none`)
unconditionally on every name match. -/
theorem duplicate_sensor_last_entry_wins (n : String) (pre post : List Json)
    (e : Json) (hn : n ∈ recognizedNames) (he : getName e = n)
    (hpost : ∀ x ∈ post, getName x ≠ n) :
    metricOf n (buildReading (pre ++ e :: post)) = getReading e :=
  metricOf_buildReading_last n pre post e hn he hpost

/-- Witness for C10: in `[CPU_Power/120, CPU_Power/no Reading]` the
later duplicate with a missing `Reading` overwrites the earlier 120,
leaving `cpu_power` absent for the cycle. -/
theorem duplicate_sensor_last_entry_wins_witness :
    metricOf "CPU_Power" (buildReading ([cpuPowerGood] ++ cpuPowerBad :: [])) = none :=
  (duplicate_sensor_last_entry_wins "CPU_Power" [cpuPowerGood] [] cpuPowerBad
    (by decide) (by decide) (fun x hx => absurd hx (List.not_mem_nil x))).trans
    (by decide)

/-- Counterexample to C2 as stated: in the array
`[CPU_Power without Reading, CPU_Power with Reading 120]` the first
entry has a recognized name and a missing `Reading`, yet the built
reading's `cpu_power` metric is `some 120`, not absent — the loop
assigns on every name match, so a later duplicate overwrites the
earlier assignment. -/
theorem bad_reading_metric_absent_counterexample :
    getName cpuPowerBad = "CPU_Power" ∧
      "CPU_Power" ∈ recognizedNames ∧
      getReading cpuPowerBad = none ∧
      metricOf "CPU_Power" (buildReading [cpuPowerBad, cpuPowerGood]) ≠ none :=
  ⟨by decide, by decide, by decide, by decide⟩

/-- C2 (amended): For every sensor entry with a recognized name whose
`Reading` field is missing or not a non-negative integer, and that is
the last entry with that name in the `Sensors` array, the
corresponding metric of the built `SensorReading` is absent (`none`),
never zero; the render-time display of that absent metric is the
default 0 (`unwrap_or(0)`). -/
theorem bad_reading_metric_absent (n : String) (pre post : List Json) (e : Json)
    (hn : n ∈ recognizedNames) (he : getName e = n) (hbad : getReading e = none)
    (hpost : ∀ x ∈ post, getName x ≠ n) :
    metricOf n (buildReading (pre ++ e :: post)) = none ∧
      displayMetric (metricOf n (buildReading (pre ++ e :: post))) = 0 := by
  have h := metricOf_buildReading_last n pre post e hn he hpost
  rw [h, hbad]
  exact ⟨rfl, rfl⟩

/-- Witness for C2 (amended): `PSU1_PIN` with a string `Reading`
(`as_u64` fails) as the only entry of its name leaves `psu_pin`
absent, displayed as 0. -/
def psuPinBad : Json :=
  .obj [("Name", .str "PSU1_PIN"), ("Reading", .str "notanumber")]

theorem bad_reading_metric_absent_witness :
    metricOf "PSU1_PIN" (buildReading ([cpuPowerGood] ++ psuPinBad :: [])) = none ∧
      displayMetric (metricOf "PSU1_PIN"
        (buildReading ([cpuPowerGood] ++ psuPinBad :: []))) = 0 :=
  bad_reading_metric_absent "PSU1_PIN" [cpuPowerGood] [] psuPinBad
    (by decide) (by decide) (by decide) (fun x hx => absurd hx (List.not_mem_nil x))

/-! ### Render-panel claims -/

/-- Counterexample to C7 as stated: the panel body for an address with
no snapshot entry is the literal `" No data available."` of
src/main.rs, which is not the literal `"no data available"` the claim
names. -/
theorem no_data_panel_counterexample :
    lookupSnap "10.0.0.2" ([] : Snapshot) = none ∧
      panelText ([] : Snapshot) "10.0.0.2" ≠ "no data available" :=
  ⟨rfl, by decide⟩

/-- C7 (amended): For every address with no entry in the current
snapshot, the rendered panel body is exactly the literal
`" No data available."`, deterministically — `panelText` is a pure
function of the snapshot being read this tick, so no prior cycle's
data can influence it. -/
theorem no_data_panel_text (data : Snapshot) (ip : String)
    (h : lookupSnap ip data = none) :
    panelText data ip = " No data available." := by
  unfold panelText
  rw [h]

/-- Witness for C7 (amended): the empty initial snapshot renders the
no-data message for any address. -/
theorem no_data_panel_text_witness :
    panelText ([] : Snapshot) "10.0.0.1" = " No data available." :=
  no_data_panel_text ([] : Snapshot) "10.0.0.1" rfl

/-! ### Session acquisition (`get_tokens`) -/

/-- Counterexample to C5 as stated: a response whose body fails JSON
parsing is not a transport-level failure, yet `from_str(&text)?` makes
`get_tokens` abort: the run does not continue with an empty-string
token for that address. -/
theorem get_tokens_abort_counterexample :
    LoginResp.parseErr.fails = true ∧
      getTokens [LoginResp.parseErr] = Except.error () ∧
      getTokens [LoginResp.parseErr] ≠ Except.ok [""] :=
  ⟨rfl, rfl, fun h => Except.noConfusion h⟩

/-- C5 (amended): `get_tokens` aborts exactly when some address's
login exchange fails at transport level (request cannot be sent, or
the response body cannot be received) or its body fails to parse as
JSON — all three `?` operators propagate; when every response parses,
it returns the tokens in address order, and a parsed body that lacks
the nested `Oem.Public.X-Auth-Token` string degrades to the empty
token rather than an error. -/
theorem get_tokens_abort_characterization (resps : List LoginResp) :
    (getTokens resps = Except.error () ↔ ∃ r ∈ resps, r.fails = true) ∧
      (∀ js, resps = List.map LoginResp.parsed js →
        getTokens resps = Except.ok (List.map extractToken js)) ∧
      (∀ j, Json.asStr (((j.index "Oem").index "Public").index "X-Auth-Token")
          = none → extractToken j = "") := by
  refine ⟨?_, ?_, ?_⟩
  · induction resps with
    | nil => simp [getTokens]
    | cons r rest ih =>
      cases r with
      | sendErr => simp [getTokens, LoginResp.fails]
      | textErr => simp [getTokens, LoginResp.fails]
      | parseErr => simp [getTokens, LoginResp.fails]
      | parsed j =>
        rw [getTokens]
        cases h : getTokens rest with
        | ok ts =>
          simp only [LoginResp.fails, List.mem_cons]
          constructor
          · intro hh; exact absurd hh (fun hc => Except.noConfusion hc)
          · rintro ⟨r, rfl | hr, hf⟩
            · exact absurd hf (by simp [LoginResp.fails])
            · exact absurd (ih.mpr ⟨r, hr, hf⟩) (by rw [h]; exact fun hc => Except.noConfusion hc)
        | error e =>
          cases e
          simp only [LoginResp.fails, List.mem_cons, true_iff]
          obtain ⟨r, hr, hf⟩ := ih.mp h
          exact ⟨r, Or.inr hr, hf⟩
  · intro js
    induction js generalizing resps with
    | nil => rintro rfl; rfl
    | cons j rest ih =>
      rintro rfl
      rw [List.map_cons, getTokens, ih (List.map LoginResp.parsed rest) rfl]
      rfl
  · intro j h
    rw [extractToken, h]
    rfl

/-- A parsed login body with `Oem.Public` present but no
`X-Auth-Token` field. -/
def bodyNoToken : Json :=
  .obj [("Oem", .obj [("Public", .obj [])])]

/-- Witness for C5 (amended): a parsed body lacking the token field
yields the empty token and no abort, while a transport failure aborts. -/
theorem get_tokens_abort_characterization_witness :
    getTokens [LoginResp.parsed bodyNoToken] = Except.ok [""] ∧
      getTokens [LoginResp.sendErr] = Except.error () :=
  ⟨(get_tokens_abort_characterization [LoginResp.parsed bodyNoToken]).2.1
      [bodyNoToken] rfl,
   (get_tokens_abort_characterization [LoginResp.sendErr]).1.mpr
      ⟨LoginResp.sendErr, List.mem_cons_self _ _, rfl⟩⟩

/-! ### Render-loop timing and teardown -/

/-- Counterexample to C3 as stated: when drawing overran the tick
(`elapsed = 1001 ms > 1000 ms`), the wait duration
`tick_rate - last_tick.elapsed()` is not clamped to zero — the plain
`Duration` subtraction underflows (a panic, modelled `none`), so the
wait does fail. -/
theorem poll_wait_counterexample :
    pollTimeout 1001 = none ∧ pollTimeout 1001 ≠ some 0 :=
  ⟨rfl, by decide⟩

/-- C3 (amended): On every render-loop iteration whose elapsed time
since the last tick does not exceed the tick interval, the event-poll
wait duration is exactly the tick interval minus the elapsed time;
there is no clamping, and an elapsed time beyond the interval makes
the `Duration` subtraction underflow instead. -/
theorem poll_wait_is_remainder (elapsed : Nat) (h : elapsed ≤ tickRateMillis) :
    pollTimeout elapsed = some (tickRateMillis - elapsed) := by
  rw [pollTimeout, durSub, if_pos h]

/-- Witness for C3 (amended): 250 ms into the tick, the wait is the
remaining 750 ms. -/
theorem poll_wait_is_remainder_witness :
    pollTimeout 250 = some 750 :=
  poll_wait_is_remainder 250 (by decide)

/-- Counterexample to C4 as stated: a drawing error propagates out of
`start_ui` through `?` before the teardown code after the loop is
reached — that exit path performs zero teardowns, not one. -/
theorem ui_teardown_counterexample :
    runStartUi [UiEvent.drawErr] = (some (Except.error ()), 0) ∧
      (runStartUi [UiEvent.drawErr]).2 ≠ 1 :=
  ⟨rfl, by decide⟩

/-- C4 (amended): The terminal-mode teardown runs exactly once on the
quit-keypress exit path (the `break` falls through to the teardown
after the loop), and zero times on an exit caused by a drawing or
event error (the `?` operators return from `start_ui` before the
teardown); while the loop is still running no teardown has occurred. -/
theorem ui_teardown_only_on_quit (evs : List UiEvent) :
    ((runStartUi evs).1 = some (Except.ok ()) → (runStartUi evs).2 = 1) ∧
      ((runStartUi evs).1 = some (Except.error ()) → (runStartUi evs).2 = 0) ∧
      ((runStartUi evs).1 = none → (runStartUi evs).2 = 0) := by
  unfold runStartUi
  cases h : uiLoop evs with
  | error e => cases e; simp
  | ok o =>
    cases o with
    | none => simp
    | some u => cases u; simp

/-- Witness for C4 (amended): a trace with a timeout, a non-quit key
and then the quit key exits via `break` with exactly one teardown. -/
theorem ui_teardown_only_on_quit_witness :
    (runStartUi [UiEvent.timeout, UiEvent.keyPress 'x', UiEvent.keyPress 'q']).2 = 1 :=
  (ui_teardown_only_on_quit
    [UiEvent.timeout, UiEvent.keyPress 'x', UiEvent.keyPress 'q']).1 rfl

/-! ### Poller timing -/

/-- Counterexample to C6 as stated: after a cycle that took 500 ms of
the 1-second interval, the poller's sleep is the full 1000 ms — not at
most the remaining 500 ms — because `sleep(Duration::from_secs(1))`
runs unconditionally after the cycle completes. -/
theorem poller_sleep_counterexample :
    sleepAfterCycle 500 = 1000 ∧ ¬ sleepAfterCycle 500 ≤ 1000 - 500 :=
  ⟨rfl, by decide⟩

theorem foldl_nextCycleStart (l : List Nat) (s : Nat) :
    List.foldl nextCycleStart s l = s + l.sum + pollSleepMillis * l.length := by
  induction l generalizing s with
  | nil => simp
  | cons d rest ih =>
    rw [List.foldl_cons, ih, nextCycleStart, sleepAfterCycle]
    simp [List.sum_cons, Nat.mul_succ]
    ring

/-- C6 (amended): After each poll cycle the poller sleeps the fixed
1-second interval measured from cycle completion, not until a boundary
measured from cycle start: after any sequence of cycles the next cycle
starts at the sum of all cycle durations plus one full sleep per
cycle, so slow cycles drift the schedule forward by their full
duration. -/
theorem poller_schedule_drifts (durations : List Nat) :
    cycleStart durations =
      durations.sum + pollSleepMillis * durations.length := by
  rw [cycleStart, foldl_nextCycleStart, Nat.zero_add]

/-! ### Shared snapshot store -/

theorem observedReads_from (cycles : Nat → Snapshot) (evs : List StoreEvent)
    (cur s : Snapshot) (h : s ∈ observedReads cycles evs cur) :
    s = cur ∨ ∃ n, StoreEvent.install n ∈ evs ∧ s = cycles n := by
  induction evs generalizing cur with
  | nil => exact absurd h (List.not_mem_nil s)
  | cons e rest ih =>
    cases e with
    | install n =>
      rcases ih (cycles n) h with rfl | ⟨m, hm, rfl⟩
      · exact Or.inr ⟨n, List.mem_cons_self _ _, rfl⟩
      · exact Or.inr ⟨m, List.mem_cons_of_mem _ hm, rfl⟩
    | read =>
      rcases List.mem_cons.mp h with rfl | hmem
      · exact Or.inl rfl
      · rcases ih cur hmem with rfl | ⟨m, hm, rfl⟩
        · exact Or.inl rfl
        · exact Or.inr ⟨m, List.mem_cons_of_mem _ hm, rfl⟩

/-- C9: Starting from the empty initial map, every snapshot a reader
observes through the store is either the initial empty snapshot or the
complete map of a single installed cycle — never a mixture of entries
from two cycles. This holds because each install is one atomic
whole-value replacement performed under the exclusive writer lock
(`*guard = map` on a map fully built before the lock is taken), which
is exactly how the event is modelled. -/
theorem reader_sees_single_cycle (cycles : Nat → Snapshot)
    (evs : List StoreEvent) (s : Snapshot)
    (h : s ∈ observedReads cycles evs []) :
    s = [] ∨ ∃ n, StoreEvent.install n ∈ evs ∧ s = cycles n :=
  observedReads_from cycles evs [] s h

/-- A concrete cycle family for the C9 witness. -/
def cyclesW : Nat → Snapshot :=
  fun _ => [("10.0.0.1", initReading)]

/-- Witness for C9: in the trace install-then-read, the read observes
`cyclesW 0` and the theorem attributes it to a single cycle. -/
theorem reader_sees_single_cycle_witness :
    ([("10.0.0.1", initReading)] : Snapshot) = [] ∨
      ∃ n, StoreEvent.install n ∈ [StoreEvent.install 0, StoreEvent.read] ∧
        ([("10.0.0.1", initReading)] : Snapshot) = cyclesW n :=
  reader_sees_single_cycle cyclesW [StoreEvent.install 0, StoreEvent.read]
    [("10.0.0.1", initReading)] (by simp [observedReads, cyclesW])



